import Mathlib

/-!
Verification of the scrape orchestration and state-aggregation engine of
`src/app.py` (a Flask review-scraper service).

The embedding models:
* `scrapeReviews`   — the aggregation cycle `scrape_reviews` (app.py lines 73-145),
  with the two scrapers supplied as oracles `String → FetchResult`, a logical
  clock for `datetime.utcnow()` calls and fetch invocations, an explicit event
  trace, and the write of the module-global `latest_data`;
* `scrapeEndpoint`  — the sequential behaviour of the `/scrape` handler
  (lines 200-249): validation, the immediate cycle, and the in-place addition of
  the `background_scraping` / `refresh_interval` keys to the result dict, which
  aliases the stored snapshot;
* `backgroundScraper` — the polling loop body (lines 148-166) run over a finite
  schedule of per-cycle environments;
* a small interleaving model (`jobStep`, `tickAll`, `stopEndpointT`,
  `scrapeEndpointT`) of the thread + shared `stop_scraping` event machinery
  (lines 69-70, 148-166, 225-243, 264-281), used for the temporal claims.
-/

namespace WebScraper

/-- Review records are opaque payloads; a string stands in for one. -/
abbrev Review := String

/-- Result of one `get_reviews` call: a list of records, or a raised exception
carrying its message (caught by the per-source handler in app.py 105/116). -/
inductive FetchResult where
  | ok (reviews : List Review)
  | exn (msg : String)
deriving DecidableEq, Repr

/-- `true` iff the fetch raised. -/
def FetchResult.isErr : FetchResult → Bool
  | .ok _ => false
  | .exn _ => true

/-- The record list a successful fetch produced (empty for a raised fetch). -/
def FetchResult.records : FetchResult → List Review
  | .ok rs => rs
  | .exn _ => []

/-- The four status strings of app.py: `no_data` (line 60), `success` (95),
`partial_success` (125, named `mixedSuccess` here), `failed` (123/140). -/
inductive Status where
  | noData
  | success
  | mixedSuccess
  | failed
deriving DecidableEq, Repr

/-- The snapshot dict built by `scrape_reviews` (lines 91-97). `timestamp` is a
logical-clock reading of the `datetime.utcnow()` call that produced it (`none`
in the initial `latest_data`, line 57). The two optional fields model the keys
added by the `/scrape` handler at lines 242-243; a fresh cycle result does not
have them. -/
structure Snapshot where
  timestamp : Option Nat
  yelp_reviews : List Review
  amazon_reviews : List Review
  status : Status
  errors : List String
  background_scraping : Option Bool := none
  refresh_interval : Option Int := none
deriving DecidableEq, Repr

/-- The initial module-global `latest_data` (app.py lines 56-62). -/
def initialData : Snapshot :=
  { timestamp := none
    yelp_reviews := []
    amazon_reviews := []
    status := .noData
    errors := [] }

/-- Observable events of one cycle / one handler call, in chronological order.
Each carries the logical time at which it happened where ordering matters. -/
inductive Ev where
  | utcnow (t : Nat)
  | fetchYelp (t : Nat)
  | fetchAmazon (t : Nat)
  | storeWrite (s : Snapshot)
  | inPlace
deriving DecidableEq, Repr

/-- `true` for a Yelp fetch event. -/
def Ev.isFetchYelp : Ev → Bool
  | .fetchYelp _ => true
  | _ => false

/-- `true` for an Amazon fetch event. -/
def Ev.isFetchAmazon : Ev → Bool
  | .fetchAmazon _ => true
  | _ => false

/-- The time of a fetch event, if it is one. -/
def Ev.fetchTime : Ev → Option Nat
  | .fetchYelp t => some t
  | .fetchAmazon t => some t
  | _ => none

/-- Output of one `scrape_reviews` call: the returned dict, the value of the
module-global `latest_data` after the call, and the event trace. -/
structure CycleOut where
  result : Snapshot
  store : Snapshot
  evs : List Ev
deriving DecidableEq, Repr

/-- `scrape_reviews` (app.py lines 73-145). `yf`/`af` are the two scraper
oracles, `yi`/`ai` the inputs (the absent default is `""`, line 214-215, and
requestedness is Python truthiness, lines 100/111). `unexpected = some m`
models an exception raised in the body outside the two per-source handlers
(e.g. by `logger.info` at line 88), caught by the outer handler at line 132.
`t0` is the logical clock on entry; `st` is `latest_data` before the call
(never read, always overwritten at lines 128/144). -/
def scrapeReviews (yf af : String → FetchResult) (yi ai : String)
    (unexpected : Option String) (t0 : Nat) (st : Snapshot) : CycleOut :=
  match unexpected with
  | some m =>
      -- lines 132-145: outer except builds a fresh failed result and stores it
      let r : Snapshot :=
        { timestamp := some t0
          yelp_reviews := []
          amazon_reviews := []
          status := .failed
          errors := ["General scraping error: " ++ m] }
      { result := r, store := r, evs := [Ev.storeWrite r] }
  | none =>
      let _ := st
      -- line 92: timestamp captured first, before either fetch
      let (yr, yerrs, yevs, tY) :=
        if yi = "" then (([] : List Review), ([] : List String), ([] : List Ev), t0)
        else
          match yf yi with
          | .ok rs => (rs, [], [Ev.fetchYelp (t0 + 1)], t0 + 1)
          | .exn m => ([], ["Yelp scraping failed: " ++ m], [Ev.fetchYelp (t0 + 1)], t0 + 1)
      let (ar, aerrs, aevs, _tA) :=
        if ai = "" then (([] : List Review), ([] : List String), ([] : List Ev), tY)
        else
          match af ai with
          | .ok rs => (rs, [], [Ev.fetchAmazon (tY + 1)], tY + 1)
          | .exn m => ([], ["Amazon scraping failed: " ++ m], [Ev.fetchAmazon (tY + 1)], tY + 1)
      let errs := yerrs ++ aerrs
      -- lines 122-125
      let status :=
        if errs ≠ [] ∧ yr = [] ∧ ar = [] then Status.failed
        else if errs ≠ [] then Status.mixedSuccess
        else Status.success
      let r : Snapshot :=
        { timestamp := some t0
          yelp_reviews := yr
          amazon_reviews := ar
          status := status
          errors := errs }
      { result := r, store := r, evs := [Ev.utcnow t0] ++ yevs ++ aevs ++ [Ev.storeWrite r] }

/-- The part of the module state the sequential handler model tracks:
`latest_data` and whether `scraping_thread` is alive. -/
structure EndState where
  store : Snapshot
  jobRunning : Bool
deriving DecidableEq, Repr

/-- Response of the `/scrape` handler: the jsonified result, or the 400
validation response of lines 220-223. -/
inductive Resp where
  | ok (s : Snapshot)
  | badRequest (msg : String)
deriving DecidableEq, Repr

/-- Output of one `/scrape` handler call. -/
structure EndOut where
  resp : Resp
  state : EndState
  evs : List Ev
deriving DecidableEq, Repr

/-- The `/scrape` handler `scrape_endpoint` (app.py lines 200-249), sequential
view. Validation (219-223) precedes everything; lines 226-229 stop any alive
background job; line 232 runs the immediate cycle; lines 235-243 start the
background thread and then add two keys to `result` *in place* — `result` is
the same dict object `latest_data` now refers to (line 128), so the stored
snapshot is mutated without a further store assignment (event `Ev.inPlace`). -/
def scrapeEndpoint (yf af : String → FetchResult) (yi ai : String)
    (refresh : Option Int) (unexpected : Option String) (t0 : Nat)
    (st : EndState) : EndOut :=
  if yi = "" ∧ ai = "" then
    { resp := .badRequest "Please provide at least one URL parameter: yelp_url or amazon_url"
      state := st
      evs := [] }
  else
    let st1 : EndState := { st with jobRunning := false }
    let c := scrapeReviews yf af yi ai unexpected t0 st1.store
    match refresh with
    | some n =>
        if 0 < n then
          let r2 : Snapshot :=
            { c.result with background_scraping := some true, refresh_interval := some n }
          { resp := .ok r2
            state := { store := r2, jobRunning := true }
            evs := c.evs ++ [Ev.inPlace] }
        else
          { resp := .ok c.result
            state := { store := c.store, jobRunning := false }
            evs := c.evs }
    | none =>
        { resp := .ok c.result
          state := { store := c.store, jobRunning := false }
          evs := c.evs }

/-- One cycle's environment in the polling loop: the two oracles, the
unexpected-exception input and the clock at cycle start (the external world
may differ from cycle to cycle; the two inputs are fixed at job creation). -/
structure Env where
  yf : String → FetchResult
  af : String → FetchResult
  unexpected : Option String
  t0 : Nat

/-- The polling loop body of `background_scraper` (app.py lines 159-164) run
over a finite schedule of cycle environments (the loop itself runs until the
stop event is set; the schedule length is the number of iterations the event
allows). Returns the snapshots written, in order, and the final `latest_data`. -/
def backgroundScraper (yi ai : String) (envs : List Env) (st : Snapshot) :
    List Snapshot × Snapshot :=
  match envs with
  | [] => ([], st)
  | e :: rest =>
      let c := scrapeReviews e.yf e.af yi ai e.unexpected e.t0 st
      let (ws, st') := backgroundScraper yi ai rest c.store
      (c.result :: ws, st')

/-!
Interleaving model of the thread machinery: one `Job` per started
`scraping_thread`, all sharing the single `stop_scraping` event (app.py
line 70). A tick is one logical second.
-/

/-- Program counter of a background job running `background_scraper`:
`loopCheck` is the `while not stop_scraping.is_set()` test (line 159);
`scraping k` is an in-flight `scrape_reviews` call with `k` ticks of fetch work
left (the event is not consulted during a fetch); reaching `scraping 0` writes
`latest_data` and moves to `waiting interval` (`stop_scraping.wait`, line 163);
`finished` is thread exit. -/
inductive JobPC where
  | loopCheck
  | scraping (k : Nat)
  | waiting (k : Nat)
  | finished
deriving DecidableEq, Repr

/-- One background job: its generation (which `/scrape` request started it),
how many ticks one of its fetches takes, its interval, and its pc. -/
structure Job where
  gen : Nat
  fetchDur : Nat
  interval : Nat
  pc : JobPC
deriving DecidableEq, Repr

/-- Entries of the global observation log: a `latest_data` write tagged with
the generation that made it, or a `/stop` response (`stopped` as reported). -/
inductive TEv where
  | wr (gen : Nat)
  | ack (stopped : Bool)
deriving DecidableEq, Repr

/-- Whole-system state: the shared `stop_scraping` event, every thread ever
started (in creation order, so the last is what `scraping_thread` refers to),
and the observation log. -/
structure TSys where
  event : Bool
  jobs : List Job
  log : List TEv
deriving DecidableEq, Repr

/-- Empty system: event clear, no thread started. -/
def initT : TSys := { event := false, jobs := [], log := [] }

/-- One tick of one job under the current event value, per app.py 159-164:
the loop test and the interval wait observe the event; a running fetch does
not. Returns the advanced job and the generation of a `latest_data` write, if
this tick completed a cycle. -/
def jobStep (ev : Bool) (j : Job) : Job × Option Nat :=
  match j.pc with
  | .loopCheck =>
      if ev then ({ j with pc := .finished }, none)
      else ({ j with pc := .scraping j.fetchDur }, none)
  | .scraping (k + 1) => ({ j with pc := .scraping k }, none)
  | .scraping 0 => ({ j with pc := .waiting j.interval }, some j.gen)
  | .waiting k =>
      if ev then ({ j with pc := .finished }, none)
      else
        match k with
        | 0 => ({ j with pc := .loopCheck }, none)
        | k + 1 => ({ j with pc := .waiting k }, none)
  | .finished => (j, none)

/-- Advance every thread one tick (they run concurrently with the handler
thread); writes are appended to the log in thread-creation order. -/
def tickAll (s : TSys) : TSys :=
  let stepped := s.jobs.map (jobStep s.event)
  { s with
    jobs := stepped.map Prod.fst
    log := s.log ++ (stepped.filterMap Prod.snd).map TEv.wr }

/-- Run `n` ticks. -/
def ticks : Nat → TSys → TSys
  | 0, s => s
  | n + 1, s => ticks n (tickAll s)

/-- `scraping_thread and scraping_thread.is_alive()` (lines 226/272):
the most recently started thread is still running. -/
def newestAlive (s : TSys) : Bool :=
  match s.jobs.getLast? with
  | some j => decide (j.pc ≠ .finished)
  | none => false

/-- `scraping_thread.join(timeout=5)` (lines 228/274): the handler blocks for
at most 5 ticks, during which the background threads keep running; it returns
as soon as the joined thread finishes, or when the timeout elapses — in which
case the thread is still alive. -/
def joinNewest : Nat → TSys → TSys
  | 0, s => s
  | n + 1, s => if newestAlive s then joinNewest n (tickAll s) else s

/-- The stop-the-old-job block shared by `/scrape` (lines 226-229) and `/stop`
(lines 272-275): set the shared event, join with a 5-tick timeout, then clear
the shared event — whether or not the join actually observed thread exit. -/
def stopCurrentJob (s : TSys) : TSys :=
  let a : TSys := { s with event := true }
  let b := joinNewest 5 a
  { b with event := false }

/-- The `/stop` handler `stop_scraping_endpoint` (app.py lines 264-281): if a
thread is alive, stop it and report success; otherwise report that none was
active. The ack is logged at response time. -/
def stopEndpointT (s : TSys) : TSys :=
  if newestAlive s then
    let b := stopCurrentJob s
    { b with log := b.log ++ [TEv.ack true] }
  else
    { s with log := s.log ++ [TEv.ack false] }

/-- The `/scrape` handler in the interleaving model (validation assumed
passed): stop any alive job (lines 225-229), run the immediate cycle — its
fetches take `fetchDur` ticks, during which background threads keep running —
write `latest_data` (line 128, logged as `TEv.wr gen`), then, when an interval
was requested, start the new generation's thread (lines 235-241). -/
def scrapeEndpointT (gen fetchDur interval : Nat) (startJob : Bool)
    (s : TSys) : TSys :=
  let s1 := if newestAlive s then stopCurrentJob s else s
  let s2 := ticks fetchDur s1
  let s3 : TSys := { s2 with log := s2.log ++ [TEv.wr gen] }
  if startJob then
    { s3 with
      jobs := s3.jobs ++ [{ gen := gen, fetchDur := fetchDur, interval := interval,
                            pc := .loopCheck }] }
  else s3

/-- The suffix of the log strictly after the first occurrence of `x`
(everything if `x` never occurs). -/
def afterFirst (x : TEv) : List TEv → List TEv
  | [] => []
  | y :: ys => if y = x then ys else afterFirst x ys

/-! Concrete oracles used in counterexamples and witnesses. -/

/-- A scraper that always succeeds with one record. -/
def yfOne : String → FetchResult := fun _ => .ok ["y1"]

/-- A scraper that always succeeds with one record. -/
def afOne : String → FetchResult := fun _ => .ok ["a1"]

/-- A scraper that always raises. -/
def yfBoom : String → FetchResult := fun _ => .exn "boom"

/-- A scraper that succeeds with an empty record list. -/
def afEmpty : String → FetchResult := fun _ => .ok []

/-- The snapshot of the most recent `Ev.storeWrite` event of a trace. -/
def lastStoreWrite (l : List Ev) : Option Snapshot :=
  (l.filterMap fun e => match e with | .storeWrite s => some s | _ => none).getLast?

/-! ### C1 — four-way status classification -/

/-- Claim C1, as stated, is false: with Yelp requested and raising while Amazon
is requested and returns a clean empty `Ok`, the cycle's status is `failed`,
although not every requested source produced `Err` (Amazon produced `Ok`), so
the claimed "`Failed` iff every requested source produced `Err` and no source
produced any records" does not hold at this input. -/
theorem C1_counterexample :
    ¬ ((scrapeReviews yfBoom afEmpty "y" "a" none 0 initialData).result.status
          = Status.failed ↔
        ((yfBoom "y").isErr = true ∧ (afEmpty "a").isErr = true) ∧
        (yfBoom "y").records = [] ∧ (afEmpty "a").records = []) := by
  decide

/-- Claim C1 amended: for a cycle with at least one source requested,
`failed` iff at least one requested source raised AND no source produced any
records (a requested source may still have produced an empty `Ok`);
`partial_success` (`mixedSuccess`) iff at least one requested source raised and
at least one produced a non-empty `Ok`; `success` iff no requested source
raised. -/
theorem C1_status_classification (yf af : String → FetchResult) (yi ai : String)
    (t0 : Nat) (st : Snapshot) (h : yi ≠ "" ∨ ai ≠ "") :
    let S := (scrapeReviews yf af yi ai none t0 st).result
    (S.status = Status.failed ↔
       ((yi ≠ "" ∧ (yf yi).isErr = true) ∨ (ai ≠ "" ∧ (af ai).isErr = true)) ∧
       (yi ≠ "" → (yf yi).records = []) ∧ (ai ≠ "" → (af ai).records = [])) ∧
    (S.status = Status.mixedSuccess ↔
       ((yi ≠ "" ∧ (yf yi).isErr = true) ∨ (ai ≠ "" ∧ (af ai).isErr = true)) ∧
       ((yi ≠ "" ∧ (yf yi).records ≠ []) ∨ (ai ≠ "" ∧ (af ai).records ≠ []))) ∧
    (S.status = Status.success ↔
       ((yi ≠ "" → (yf yi).isErr = false) ∧ (ai ≠ "" → (af ai).isErr = false))) := by
  obtain hy | hy := em (yi = "") <;> obtain ha | ha := em (ai = "")
  · exact absurd h (by simp [hy, ha])
  · rcases haf : af ai with rs2 | m2
    · cases rs2 <;> simp_all [scrapeReviews, FetchResult.isErr, FetchResult.records]
    · simp_all [scrapeReviews, FetchResult.isErr, FetchResult.records]
  · rcases hyf : yf yi with rs | m
    · cases rs <;> simp_all [scrapeReviews, FetchResult.isErr, FetchResult.records]
    · simp_all [scrapeReviews, FetchResult.isErr, FetchResult.records]
  · rcases hyf : yf yi with rs | m <;> rcases haf : af ai with rs2 | m2
    · cases rs <;> cases rs2 <;>
        simp_all [scrapeReviews, FetchResult.isErr, FetchResult.records]
    · cases rs <;> simp_all [scrapeReviews, FetchResult.isErr, FetchResult.records]
    · cases rs2 <;> simp_all [scrapeReviews, FetchResult.isErr, FetchResult.records]
    · simp_all [scrapeReviews, FetchResult.isErr, FetchResult.records]

/-- Witness for C1: both sources requested and succeeding gives `success`. -/
theorem C1_status_classification_witness :
    (scrapeReviews yfOne afOne "y" "a" none 0 initialData).result.status
      = Status.success :=
  ((C1_status_classification yfOne afOne "y" "a" 0 initialData
      (Or.inl (by decide))).2.2).mpr (by decide)

/-! ### C2 — per-source failure isolation -/

/-- Claim C2: when both sources are requested, each source's fetch is attempted
exactly once in the cycle, whatever either oracle returns or raises (so a
first-source failure never suppresses the second fetch), and each per-source
failure is recorded as a message in the result's `errors` rather than escaping
(`scrapeReviews` is a total function into `CycleOut`). -/
theorem C2_fetch_isolation (yf af : String → FetchResult) (yi ai : String)
    (t0 : Nat) (st : Snapshot) (hy : yi ≠ "") (ha : ai ≠ "") :
    let c := scrapeReviews yf af yi ai none t0 st
    c.evs.countP Ev.isFetchYelp = 1 ∧
    c.evs.countP Ev.isFetchAmazon = 1 ∧
    (∀ m, yf yi = .exn m → ("Yelp scraping failed: " ++ m) ∈ c.result.errors) ∧
    (∀ m, af ai = .exn m → ("Amazon scraping failed: " ++ m) ∈ c.result.errors) := by
  rcases hyf : yf yi with rs | m <;> rcases haf : af ai with rs2 | m2 <;>
    simp_all [scrapeReviews, List.countP_append, List.countP_cons,
      Ev.isFetchYelp, Ev.isFetchAmazon]

/-- Witness for C2: the Yelp oracle raises, yet the Amazon fetch still happens
exactly once and the Yelp failure is recorded in `errors`. -/
theorem C2_fetch_isolation_witness :
    (scrapeReviews yfBoom afOne "y" "a" none 0 initialData).evs.countP
        Ev.isFetchAmazon = 1 ∧
    ("Yelp scraping failed: " ++ "boom") ∈
      (scrapeReviews yfBoom afOne "y" "a" none 0 initialData).result.errors :=
  ⟨(C2_fetch_isolation yfBoom afOne "y" "a" 0 initialData (by decide) (by decide)).2.1,
   (C2_fetch_isolation yfBoom afOne "y" "a" 0 initialData (by decide)
      (by decide)).2.2.1 "boom" rfl⟩

/-! ### C3 — at most one live polling job -/

/-- Claim C3 fails on the code: first request starts a polling job whose fetch
takes 9 ticks; while that fetch is in flight a second request arrives, sets the
shared `stop_scraping` event, joins with the 5-tick timeout (which elapses with
the old thread still alive), *clears the shared event* (app.py line 229), runs
its immediate cycle (`TEv.wr 2`) and starts generation 2. The old generation-1
thread then finishes its fetch, sees the cleared event, and writes
`latest_data` (the final `TEv.wr 1`) after the second request's first cycle
completed — two generations of polling loops are live and interleave. -/
theorem C3_superseded_job_writes_after_new_cycle :
    (ticks 3 (scrapeEndpointT 2 0 2 true
        (ticks 3 (scrapeEndpointT 1 9 2 true initT)))).log
      = [TEv.wr 1, TEv.wr 2, TEv.wr 2, TEv.wr 1] ∧
    TEv.wr 1 ∈ afterFirst (TEv.wr 2)
      (ticks 3 (scrapeEndpointT 2 0 2 true
        (ticks 3 (scrapeEndpointT 1 9 2 true initT)))).log := by
  decide

/-! ### C4 — snapshot immutability after the store write -/

/-- Claim C4, as stated, is false: a `/scrape` request with
`refresh_interval=5` produces a trace whose only store write carries the bare
cycle result, yet the final stored snapshot additionally carries
`background_scraping`/`refresh_interval` — the handler mutated the stored dict
in place (app.py lines 242-243, `result` aliasing `latest_data`), with no
wholesale replacement. -/
theorem C4_counterexample :
    let o := scrapeEndpoint yfOne afOne "y" "" (some 5) none 0
      { store := initialData, jobRunning := false }
    let w : Snapshot :=
      { timestamp := some 0, yelp_reviews := ["y1"], amazon_reviews := []
        status := .success, errors := [] }
    o.evs = [Ev.utcnow 0, Ev.fetchYelp 1, Ev.storeWrite w, Ev.inPlace] ∧
    lastStoreWrite o.evs = some w ∧
    o.state.store ≠ w ∧
    o.state.store =
      { w with background_scraping := some true, refresh_interval := some 5 } := by
  decide

/-- Claim C4 amended: after a `/scrape` request that passes validation, the
stored snapshot is the last store-written snapshot except that, exactly when a
positive refresh interval started a polling job, the handler has additionally
set the two confirmation fields on it in place; no other field of a written
snapshot is ever modified. -/
theorem C4_store_mutation_only_confirmation_fields (yf af : String → FetchResult)
    (yi ai : String) (refresh : Option Int) (unexpected : Option String)
    (t0 : Nat) (st : EndState) (h : ¬(yi = "" ∧ ai = "")) :
    let o := scrapeEndpoint yf af yi ai refresh unexpected t0 st
    ∃ w, lastStoreWrite o.evs = some w ∧
      o.state.store =
        (match refresh with
         | some n =>
             if 0 < n then
               { w with background_scraping := some true, refresh_interval := some n }
             else w
         | none => w) := by
  have hw : lastStoreWrite (scrapeReviews yf af yi ai unexpected t0 st.store).evs
      = some (scrapeReviews yf af yi ai unexpected t0 st.store).result ∧
      (scrapeReviews yf af yi ai unexpected t0 st.store).store
      = (scrapeReviews yf af yi ai unexpected t0 st.store).result := by
    rcases unexpected with _ | m
    · obtain hy | hy := em (yi = "") <;> obtain ha | ha := em (ai = "") <;>
        rcases hyf : yf yi with rs | m <;> rcases haf : af ai with rs2 | m2 <;>
        simp_all [scrapeReviews, lastStoreWrite]
    · simp [scrapeReviews, lastStoreWrite]
  have hip : ∀ l : List Ev, lastStoreWrite (l ++ [Ev.inPlace]) = lastStoreWrite l := by
    intro l
    simp [lastStoreWrite, List.filterMap_append]
  refine ⟨(scrapeReviews yf af yi ai unexpected t0 st.store).result, ?_, ?_⟩
  · rcases refresh with _ | n
    · simpa [scrapeEndpoint, if_neg h] using hw.1
    · by_cases hn : 0 < n
      · simpa [scrapeEndpoint, if_neg h, if_pos hn, hip] using hw.1
      · simpa [scrapeEndpoint, if_neg h, if_neg hn] using hw.1
  · rcases refresh with _ | n
    · simpa [scrapeEndpoint, if_neg h] using hw.2
    · by_cases hn : 0 < n
      · simp [scrapeEndpoint, if_neg h, if_pos hn]
      · simpa [scrapeEndpoint, if_neg h, if_neg hn] using hw.2

/-- Witness for C4 (amended): a plain one-shot request stores exactly the
written snapshot. -/
theorem C4_store_mutation_only_confirmation_fields_witness :
    ∃ w, lastStoreWrite (scrapeEndpoint yfOne afOne "y" "" none none 0
        { store := initialData, jobRunning := false }).evs = some w ∧
      (scrapeEndpoint yfOne afOne "y" "" none none 0
        { store := initialData, jobRunning := false }).state.store = w :=
  C4_store_mutation_only_confirmation_fields yfOne afOne "y" "" none none 0
    { store := initialData, jobRunning := false } (by decide)

/-! ### C5 — cycle errors are contained; the loop survives -/

/-- Claim C5: an unexpected condition raised inside a cycle is caught by the
outer handler, which still produces and stores a snapshot with status `failed`
and the single generic error entry; the polling loop runs one cycle per
iteration of its schedule regardless of any per-cycle failures (its length
never shortens), and a job step with the stop event clear never reaches
`finished` from any live state — only the cancellation event stops the loop. -/
theorem C5_cycle_error_contained :
    (∀ (yf af : String → FetchResult) (yi ai m : String) (t0 : Nat) (st : Snapshot),
       (scrapeReviews yf af yi ai (some m) t0 st).result.status = Status.failed ∧
       (scrapeReviews yf af yi ai (some m) t0 st).result.errors
         = ["General scraping error: " ++ m] ∧
       (scrapeReviews yf af yi ai (some m) t0 st).store
         = (scrapeReviews yf af yi ai (some m) t0 st).result) ∧
    (∀ (yi ai : String) (envs : List Env) (st : Snapshot),
       (backgroundScraper yi ai envs st).1.length = envs.length) ∧
    (∀ (g d i k : Nat),
       (jobStep false { gen := g, fetchDur := d, interval := i, pc := .loopCheck }).1.pc
           ≠ JobPC.finished ∧
       (jobStep false { gen := g, fetchDur := d, interval := i, pc := .scraping k }).1.pc
           ≠ JobPC.finished ∧
       (jobStep false { gen := g, fetchDur := d, interval := i, pc := .waiting k }).1.pc
           ≠ JobPC.finished) := by
  refine ⟨fun yf af yi ai m t0 st => ⟨rfl, rfl, rfl⟩, fun yi ai envs => ?_, fun g d i k => ?_⟩
  · induction envs with
    | nil => intro st; rfl
    | cons e rest ih => intro st; simp [backgroundScraper, ih]
  · cases k <;> simp [jobStep]

/-! ### C6 — when the timestamp is captured -/

/-- Claim C6, as stated, is false: in a cycle with both sources requested the
snapshot's timestamp is the clock reading 0 from cycle entry (app.py line 92),
while the two fetches happen at the strictly later instants 1 and 2 — the
timestamp is captured before the fetches start, not after they finish. -/
theorem C6_counterexample :
    (scrapeReviews yfOne afOne "y" "a" none 0 initialData).result.timestamp
        = some 0 ∧
    Ev.fetchYelp 1 ∈ (scrapeReviews yfOne afOne "y" "a" none 0 initialData).evs ∧
    Ev.fetchAmazon 2 ∈ (scrapeReviews yfOne afOne "y" "a" none 0 initialData).evs ∧
    ¬ (1 ≤ 0) := by
  decide

/-- Claim C6 amended: for every cycle without an unexpected error, the
snapshot's timestamp is the logical instant the cycle *began*: it equals the
entry clock `t0`, and every fetch of the cycle happens strictly after it. -/
theorem C6_timestamp_at_cycle_start (yf af : String → FetchResult)
    (yi ai : String) (t0 : Nat) (st : Snapshot) :
    (scrapeReviews yf af yi ai none t0 st).result.timestamp = some t0 ∧
    ∀ e ∈ (scrapeReviews yf af yi ai none t0 st).evs,
      ∀ t, e.fetchTime = some t → t0 < t := by
  obtain hy | hy := em (yi = "") <;> obtain ha | ha := em (ai = "") <;>
    rcases hyf : yf yi with rs | m <;> rcases haf : af ai with rs2 | m2 <;>
    (constructor
     · simp_all [scrapeReviews]
     · intro e he t ht
       simp_all [scrapeReviews]
       rcases he with he | he | he | he <;> simp_all [Ev.fetchTime] <;> omega)

/-- Witness for C6 (amended): at entry clock 5 the timestamp reads 5 and the
Yelp fetch, which is in the trace at instant 6, is strictly later. -/
theorem C6_timestamp_at_cycle_start_witness :
    (scrapeReviews yfOne afOne "y" "a" none 5 initialData).result.timestamp
        = some 5 ∧
    5 < 6 :=
  ⟨(C6_timestamp_at_cycle_start yfOne afOne "y" "a" 5 initialData).1,
   (C6_timestamp_at_cycle_start yfOne afOne "y" "a" 5 initialData).2
     (Ev.fetchYelp 6) (by decide) 6 rfl⟩

/-! ### C7 — validation rejects before anything happens -/

/-- Claim C7: when both identifiers are absent (the handler's defaults, app.py
lines 214-215 and 219), `/scrape` answers with the 400 validation response, the
module state — stored snapshot and thread flag — is exactly what it was, and
the trace is empty: no fetch was attempted, whatever the oracles, the refresh
parameter or the clock. -/
theorem C7_validation_rejects_before_fetch (yf af : String → FetchResult)
    (refresh : Option Int) (unexpected : Option String) (t0 : Nat)
    (st : EndState) :
    scrapeEndpoint yf af "" "" refresh unexpected t0 st =
      { resp := .badRequest
          "Please provide at least one URL parameter: yelp_url or amazon_url"
        state := st
        evs := [] } := by
  simp [scrapeEndpoint]

/-! ### C8 — StopPolling totality and post-stop silence -/

/-- Claim C8 fails on the code in its second half. First half (proved here):
`/stop` with no live thread reports `stopped=false` and writes nothing. Second
half refuted: with a generation-1 job 2 ticks into a 9-tick fetch, `/stop` sets
the shared event, joins for the 5-tick timeout (the fetch is still running),
clears the event and acknowledges `stopped=true` — after which the job finishes
its fetch, observes the cleared event and writes `latest_data` (`TEv.wr 1`
after `TEv.ack true`), and keeps polling. -/
theorem C8_write_after_acknowledged_stop :
    (stopEndpointT initT).log = [TEv.ack false] ∧
    (stopEndpointT initT).jobs = [] ∧
    (ticks 3 (stopEndpointT (ticks 3 (scrapeEndpointT 1 9 2 true initT)))).log
      = [TEv.wr 1, TEv.ack true, TEv.wr 1] ∧
    TEv.wr 1 ∈ afterFirst (TEv.ack true)
      (ticks 3 (stopEndpointT (ticks 3 (scrapeEndpointT 1 9 2 true initT)))).log := by
  decide

/-! ### C9 — aggregator side effects -/

/-- Claim C9, as stated, is false: `scrape_reviews` itself assigns the
module-global `latest_data` (app.py line 128) — after one call with the store
still holding the initial no-data snapshot, the store no longer holds it. -/
theorem C9_counterexample :
    (scrapeReviews yfOne afOne "y" "" none 0 initialData).store
      ≠ initialData := by
  decide

/-- Claim C9 amended: the aggregation step's one shared-state effect is writing
its own returned snapshot into the store — on every path, including the
unexpected-error path (line 144), `latest_data` after the call is exactly the
returned result. -/
theorem C9_aggregator_writes_own_result (yf af : String → FetchResult)
    (yi ai : String) (unexpected : Option String) (t0 : Nat) (st : Snapshot) :
    (scrapeReviews yf af yi ai unexpected t0 st).store
      = (scrapeReviews yf af yi ai unexpected t0 st).result := by
  rcases unexpected with _ | m
  · obtain hy | hy := em (yi = "") <;> obtain ha | ha := em (ai = "") <;>
      rcases hyf : yf yi with rs | m <;> rcases haf : af ai with rs2 | m2 <;>
      simp_all [scrapeReviews]
  · rfl

/-! ### C10 — non-positive refresh interval means one-shot -/

/-- Claim C10: with a valid identifier set, a request whose refresh interval is
zero or negative behaves exactly as one with no interval at all: same output,
no polling job running afterwards, a plain `ok` response carrying the cycle
result, whose confirmation fields are absent — while a positive interval does
start a job. -/
theorem C10_nonpositive_interval_is_one_shot (yf af : String → FetchResult)
    (yi ai : String) (unexpected : Option String) (t0 : Nat) (st : EndState)
    (n : Int) (h : ¬(yi = "" ∧ ai = "")) (hn : n ≤ 0) :
    scrapeEndpoint yf af yi ai (some n) unexpected t0 st =
      scrapeEndpoint yf af yi ai none unexpected t0 st ∧
    (scrapeEndpoint yf af yi ai none unexpected t0 st).state.jobRunning = false ∧
    (scrapeEndpoint yf af yi ai none unexpected t0 st).resp =
      .ok (scrapeReviews yf af yi ai unexpected t0 st.store).result ∧
    (scrapeReviews yf af yi ai unexpected t0 st.store).result.background_scraping
      = none ∧
    (scrapeReviews yf af yi ai unexpected t0 st.store).result.refresh_interval
      = none ∧
    (∀ m : Int, 0 < m →
      (scrapeEndpoint yf af yi ai (some m) unexpected t0 st).state.jobRunning
        = true) := by
  have hbg : (scrapeReviews yf af yi ai unexpected t0 st.store).result.background_scraping
      = none ∧
      (scrapeReviews yf af yi ai unexpected t0 st.store).result.refresh_interval
      = none := by
    rcases unexpected with _ | m
    · obtain hy | hy := em (yi = "") <;> obtain ha | ha := em (ai = "") <;>
        rcases hyf : yf yi with rs | m <;> rcases haf : af ai with rs2 | m2 <;>
        simp_all [scrapeReviews]
    · exact ⟨rfl, rfl⟩
  refine ⟨?_, ?_, ?_, hbg.1, hbg.2, ?_⟩
  · simp [scrapeEndpoint, if_neg h, if_neg (by omega : ¬ 0 < n)]
  · simp [scrapeEndpoint, if_neg h]
  · simp [scrapeEndpoint, if_neg h]
  · intro m hm
    simp [scrapeEndpoint, if_neg h, if_pos hm]

/-- Witness for C10: interval 0 gives exactly the one-shot behaviour while
interval 1 starts the job. -/
theorem C10_nonpositive_interval_is_one_shot_witness :
    scrapeEndpoint yfOne afOne "y" "" (some 0) none 0
        { store := initialData, jobRunning := false } =
      scrapeEndpoint yfOne afOne "y" "" none none 0
        { store := initialData, jobRunning := false } ∧
    (scrapeEndpoint yfOne afOne "y" "" (some 1) none 0
        { store := initialData, jobRunning := false }).state.jobRunning = true :=
  ⟨(C10_nonpositive_interval_is_one_shot yfOne afOne "y" "" none 0
      { store := initialData, jobRunning := false } 0 (by decide) (by decide)).1,
   (C10_nonpositive_interval_is_one_shot yfOne afOne "y" "" none 0
      { store := initialData, jobRunning := false } 0 (by decide)
      (by decide)).2.2.2.2.2 1 (by decide)⟩

end WebScraper
